import Mathlib

/-!
Verification of the finkey active-window / app-matching / config-loading core
(src/src-tauri/src/main.rs) against its natural-language specification.

Rust strings are modelled as Lean `String`; `str::to_lowercase` is modelled
as an ASCII character-wise lowering (the rule and process names compared in
the program are ASCII). Substring containment (`str::contains`) and suffix
trimming (`str::trim_end_matches`) are defined below from first principles.
-/

/-- Character-wise ASCII lowering of a string, modelling `str::to_lowercase`. -/
def toLowerList (s : String) : List Char :=
  s.data.map Char.toLower

/-- Whether the first list is a prefix of the second (Boolean). -/
def isPrefixList : List Char → List Char → Bool
  | [], _ => true
  | _ :: _, [] => false
  | a :: as, b :: bs => a == b && isPrefixList as bs

/-- Whether `needle` occurs as a contiguous sublist of the second argument. -/
def containsList (needle : List Char) : List Char → Bool
  | [] => needle.isEmpty
  | c :: rest => isPrefixList needle (c :: rest) || containsList needle rest

/-- Models `hay.to_lowercase().contains(&needle.to_lowercase())` from the Rust source. -/
def strContainsCI (hay needle : String) : Bool :=
  containsList (toLowerList needle) (toLowerList hay)

/-- Strip the (nonempty) pattern from the front of the list as many times as it
occurs, with explicit fuel; fuel at least the list length suffices because each
strip removes at least one character. -/
def stripPrefixRepeated : Nat → List Char → List Char → List Char
  | 0, s, _ => s
  | fuel + 1, s, pat =>
    if pat.isEmpty then s
    else if isPrefixList pat s then stripPrefixRepeated fuel (s.drop pat.length) pat
    else s

/-- Models Rust `s.trim_end_matches(pat)`: remove every trailing occurrence of
`pat` from `s` (trailing occurrences of `pat` are leading occurrences of the
reversed pattern in the reversed string). -/
def trimEndMatches (s pat : String) : String :=
  String.mk (stripPrefixRepeated s.data.length s.data.reverse pat.data.reverse).reverse

/-- Boolean test that `pat` is a suffix of `s`, modelling `str::ends_with`. -/
def strEndsWith (s pat : String) : Bool :=
  isPrefixList pat.data.reverse s.data.reverse

/-! ## Data model (structs from main.rs) -/

/-- `struct ActiveWindowInfo { process: Option<String>, window: Option<String> }`. -/
structure ActiveWindowInfo where
  process : Option String
  window : Option String
deriving DecidableEq, Inhabited

/-- `struct PlatformAppMatch { process: Option<String>, window: Option<String> }`. -/
structure PlatformAppMatch where
  process : Option String
  window : Option String
deriving DecidableEq

/-- `struct PlatformConfig { windows: Option<PlatformAppMatch>, macos: Option<PlatformAppMatch> }`. -/
structure PlatformConfig where
  windows : Option PlatformAppMatch
  macos : Option PlatformAppMatch
deriving DecidableEq

/-- `struct AppRuleObject { display, process?, window?, platform? }`. -/
structure AppRuleObject where
  display : String
  process : Option String
  window : Option String
  platform : Option PlatformConfig
deriving DecidableEq

/-- `enum AppRule { Simple(String), Detailed(AppRuleObject) }`. -/
inductive AppRule where
  | Simple (name : String)
  | Detailed (obj : AppRuleObject)
deriving DecidableEq

/-- `struct NormalizedAppRule { display, process: Option<String>, window: Option<String> }`. -/
structure NormalizedAppRule where
  display : String
  process : Option String
  window : Option String
deriving DecidableEq

/-- `AppRule::normalize(&self, is_macos: bool) -> NormalizedAppRule` from main.rs. -/
def AppRule.normalize (rule : AppRule) (is_macos : Bool) : NormalizedAppRule :=
  match rule with
  | .Simple name =>
    { display := name, process := some name, window := some name }
  | .Detailed obj =>
    match obj.platform with
    | some platform =>
      let platform_match := if is_macos then platform.macos else platform.windows
      match platform_match with
      | some pm =>
        { display := obj.display, process := pm.process, window := pm.window }
      | none =>
        { display := obj.display, process := obj.process, window := obj.window }
    | none =>
      { display := obj.display, process := obj.process, window := obj.window }

/-- Rebuild an `AppRule` from a normalization result: a detailed rule carrying
exactly the normalized fields and no per-platform override. -/
def reconstructRule (n : NormalizedAppRule) : AppRule :=
  .Detailed { display := n.display, process := n.process, window := n.window, platform := none }

/-! ## Claim C9 -/

/-- Claim C9: for every app rule (bare-name or detailed, with or without
per-platform overrides) and every platform flag, `normalize` is deterministic —
equal rule and flag give equal normalized results — and idempotent: normalizing
the rule reconstructed from a normalization result under the same platform flag
yields the same `NormalizedAppRule`. -/
theorem normalize_deterministic_idempotent (r r' : AppRule) (p p' : Bool) :
    (r = r' → p = p' → r.normalize p = r'.normalize p')
      ∧ (reconstructRule (r.normalize p)).normalize p = r.normalize p := by
  constructor
  · intro hr hp
    subst hr
    subst hp
    rfl
  · cases r with
    | Simple name => rfl
    | Detailed obj =>
      cases hpl : obj.platform with
      | none => rfl
      | some platform =>
        simp only [AppRule.normalize, hpl]
        cases p <;> cases platform.windows <;> cases platform.macos <;> rfl

/-- Witness for C9 at a concrete rule and platform flag. -/
theorem normalize_deterministic_idempotent_witness :
    (AppRule.Simple "Slack").normalize true = (AppRule.Simple "Slack").normalize true
      ∧ (reconstructRule ((AppRule.Simple "Slack").normalize true)).normalize true
          = (AppRule.Simple "Slack").normalize true :=
  ⟨(normalize_deterministic_idempotent (.Simple "Slack") (.Simple "Slack") true true).1 rfl rfl,
   (normalize_deterministic_idempotent (.Simple "Slack") (.Simple "Slack") true true).2⟩

/-! ## AppMatcher (match_apps from main.rs) -/

/-- Body of the closure inside `match_apps`: normalize the rule, then set a
`matched` flag first from the process comparison, then — only if not yet
matched — from the window-title comparison, and keep the normalized rule
exactly when the flag ends up true. -/
def match_rule (is_macos : Bool) (info : ActiveWindowInfo) (rule : AppRule) :
    Option NormalizedAppRule :=
  let normalized := rule.normalize is_macos
  let matched := false
  let matched :=
    match normalized.process, info.process with
    | some rule_process, some info_process =>
      if strContainsCI info_process rule_process then true else matched
    | _, _ => matched
  let matched :=
    if !matched then
      match normalized.window, info.window with
      | some rule_window, some info_window =>
        if strContainsCI info_window rule_window then true else matched
      | _, _ => matched
    else matched
  if matched then some normalized else none

/-- `match_apps(info, apps)` from main.rs, with the platform flag
(`cfg!(target_os = "macos")`, fixed per compiled binary) made explicit. -/
def match_apps (is_macos : Bool) (info : ActiveWindowInfo) (apps : List AppRule) :
    List NormalizedAppRule :=
  apps.filterMap (match_rule is_macos info)

/-- Matching predicate written from the specification sentence: the normalized
process name is a case-insensitive substring of the snapshot's process name, OR
the normalized window fragment is a case-insensitive substring of the
snapshot's window title (absent fields never match). -/
def matchesSpec (info : ActiveWindowInfo) (n : NormalizedAppRule) : Bool :=
  (match n.process, info.process with
   | some rule_process, some info_process => strContainsCI info_process rule_process
   | _, _ => false)
    || (match n.window, info.window with
        | some rule_window, some info_window => strContainsCI info_window rule_window
        | _, _ => false)

theorem match_rule_eq_spec (is_macos : Bool) (info : ActiveWindowInfo) (rule : AppRule) :
    match_rule is_macos info rule
      = if matchesSpec info (rule.normalize is_macos)
        then some (rule.normalize is_macos) else none := by
  unfold match_rule matchesSpec
  generalize rule.normalize is_macos = n
  obtain ⟨d, pr, w⟩ := n
  obtain ⟨ip, iw⟩ := info
  dsimp only
  rcases pr with _ | rp <;> rcases ip with _ | ip <;> rcases w with _ | rw <;>
    rcases iw with _ | iw <;> dsimp only <;>
    first
      | rfl
      | (cases strContainsCI ip rp <;> cases strContainsCI iw rw <;> rfl)
      | (cases strContainsCI ip rp <;> rfl)
      | (cases strContainsCI iw rw <;> rfl)

theorem matchesSpec_none (info : ActiveWindowInfo) (n : NormalizedAppRule)
    (hp : n.process = none) (hw : n.window = none) : matchesSpec info n = false := by
  unfold matchesSpec
  rw [hp, hw]
  obtain ⟨ip, iw⟩ := info
  dsimp only
  rcases ip with _ | ip <;> rcases iw with _ | iw <;> rfl

/-- Claim C1: for every window snapshot and every list of app rules,
`match_apps` returns exactly those rules, normalized for the current platform,
whose normalized process name is a case-insensitive substring of the snapshot's
process name OR whose normalized window fragment is a case-insensitive
substring of the snapshot's window title; the result preserves the input rule
order (it is the filter of the order-preserving normalization map), and a rule
whose normalization has neither a process nor a window field is never in the
result. -/
theorem match_apps_spec (is_macos : Bool) (info : ActiveWindowInfo) (apps : List AppRule) :
    match_apps is_macos info apps
        = (apps.map (fun r => r.normalize is_macos)).filter (fun n => matchesSpec info n)
      ∧ ∀ n ∈ match_apps is_macos info apps, n.process ≠ none ∨ n.window ≠ none := by
  have hmain : match_apps is_macos info apps
      = (apps.map (fun r => r.normalize is_macos)).filter (fun n => matchesSpec info n) := by
    induction apps with
    | nil => rfl
    | cons a l ih =>
      simp only [match_apps, List.filterMap_cons, List.map_cons, List.filter_cons,
        match_rule_eq_spec]
      cases h : matchesSpec info (a.normalize is_macos) <;>
        simpa [h, match_apps] using ih
  refine ⟨hmain, ?_⟩
  intro n hn
  by_contra hcon
  push_neg at hcon
  obtain ⟨hp, hw⟩ := hcon
  rw [hmain] at hn
  have := (List.mem_filter.mp hn).2
  rw [matchesSpec_none info n hp hw] at this
  exact Bool.false_ne_true this

/-- Witness for C1 at a concrete snapshot and rule list: the Chrome rule
matches case-insensitively, the unmatching rule is dropped, and the matched
rule carries a comparable field. -/
theorem match_apps_spec_witness :
    (match_apps false
        { process := some "chrome", window := some "Google Chrome - Tab" }
        [AppRule.Detailed
          { display := "Chrome", process := some "Chrome",
            window := some "Google Chrome", platform := none },
         AppRule.Simple "Slack"]
      = (([AppRule.Detailed
            { display := "Chrome", process := some "Chrome",
              window := some "Google Chrome", platform := none },
           AppRule.Simple "Slack"].map (fun r => r.normalize false)).filter
          (fun n => matchesSpec
            { process := some "chrome", window := some "Google Chrome - Tab" } n)))
      ∧ (({ display := "Chrome", process := some "Chrome",
            window := some "Google Chrome" } : NormalizedAppRule).process ≠ none
          ∨ ({ display := "Chrome", process := some "Chrome",
               window := some "Google Chrome" } : NormalizedAppRule).window ≠ none) :=
  ⟨(match_apps_spec false
      { process := some "chrome", window := some "Google Chrome - Tab" }
      [AppRule.Detailed
        { display := "Chrome", process := some "Chrome",
          window := some "Google Chrome", platform := none },
       AppRule.Simple "Slack"]).1,
   (match_apps_spec false
      { process := some "chrome", window := some "Google Chrome - Tab" }
      [AppRule.Detailed
        { display := "Chrome", process := some "Chrome",
          window := some "Google Chrome", platform := none },
       AppRule.Simple "Slack"]).2
     { display := "Chrome", process := some "Chrome", window := some "Google Chrome" }
     (by decide)⟩

/-! ## Shortcut and config documents (structs from main.rs) -/

/-- `struct Shortcut { id: u32, category, action, mac, windows, description, tags }`. -/
structure Shortcut where
  id : Nat
  category : String
  action : String
  mac : String
  windows : String
  description : String
  tags : List String
deriving DecidableEq

/-- `struct ShortcutsConfig { shortcuts: Vec<Shortcut> }`. -/
structure ShortcutsConfig where
  shortcuts : List Shortcut
deriving DecidableEq

/-- `struct AppsConfig { apps: Vec<AppRule> }`. -/
structure AppsConfig where
  apps : List AppRule
deriving DecidableEq

/-- `get_default_apps()` from main.rs. -/
def get_default_apps : List AppRule :=
  [.Detailed { display := "Chrome", process := some "chrome",
               window := some "Google Chrome", platform := none },
   .Detailed { display := "Edge", process := some "msedge",
               window := some "Microsoft Edge", platform := none },
   .Detailed { display := "Firefox", process := some "firefox",
               window := some "Firefox", platform := none },
   .Simple "Safari",
   .Detailed { display := "Brave", process := some "brave",
               window := some "Brave", platform := none },
   .Detailed { display := "VS Code", process := some "Code",
               window := some "Visual Studio Code", platform := none },
   .Detailed { display := "Cursor", process := some "Cursor",
               window := some "Cursor", platform := none },
   .Detailed { display := "エクスプローラー", process := some "explorer",
               window := none, platform := none },
   .Detailed { display := "Finder", process := some "Finder",
               window := none, platform := none },
   .Simple "Slack",
   .Simple "Zoom",
   .Detailed { display := "Excel", process := some "EXCEL",
               window := some "Excel", platform := none },
   .Detailed { display := "Windows Terminal", process := some "WindowsTerminal",
               window := some "Windows Terminal", platform := none },
   .Detailed { display := "Terminal", process := some "Terminal",
               window := none, platform := none },
   .Detailed { display := "PowerShell", process := some "powershell",
               window := some "PowerShell", platform := none },
   .Detailed { display := "コマンドプロンプト", process := some "cmd",
               window := some "コマンド プロンプト", platform := none }]

/-- First part of `get_default_shortcuts()` from main.rs (ids 1-18, 23-32). -/
def default_shortcuts_a : List Shortcut :=
  [{ id := 1, category := "一般", action := "コピー", mac := "⌘ + C", windows := "Ctrl + C",
     description := "選択したテキストやファイルをクリップボードにコピー",
     tags := ["コピー", "copy", "クリップボード"] },
   { id := 2, category := "一般", action := "ペースト（貼り付け）", mac := "⌘ + V",
     windows := "Ctrl + V", description := "クリップボードの内容を貼り付け",
     tags := ["ペースト", "貼り付け", "paste", "クリップボード"] },
   { id := 3, category := "一般", action := "切り取り", mac := "⌘ + X", windows := "Ctrl + X",
     description := "選択したテキストやファイルを切り取り",
     tags := ["切り取り", "cut", "カット"] },
   { id := 4, category := "一般", action := "元に戻す", mac := "⌘ + Z", windows := "Ctrl + Z",
     description := "直前の操作を取り消し",
     tags := ["元に戻す", "undo", "取り消し", "アンドゥ"] },
   { id := 5, category := "一般", action := "やり直し", mac := "⌘ + Shift + Z",
     windows := "Ctrl + Y", description := "元に戻した操作をやり直し",
     tags := ["やり直し", "redo", "リドゥ"] },
   { id := 6, category := "一般", action := "すべて選択", mac := "⌘ + A", windows := "Ctrl + A",
     description := "すべての項目を選択",
     tags := ["すべて選択", "全選択", "select all"] },
   { id := 7, category := "一般", action := "検索", mac := "⌘ + F", windows := "Ctrl + F",
     description := "ページ内検索を開く",
     tags := ["検索", "find", "search", "探す"] },
   { id := 8, category := "一般", action := "保存", mac := "⌘ + S", windows := "Ctrl + S",
     description := "現在のドキュメントを保存",
     tags := ["保存", "save", "セーブ"] },
   { id := 9, category := "一般", action := "印刷", mac := "⌘ + P", windows := "Ctrl + P",
     description := "印刷ダイアログを開く",
     tags := ["印刷", "print", "プリント"] },
   { id := 10, category := "一般", action := "新規作成", mac := "⌘ + N", windows := "Ctrl + N",
     description := "新しいドキュメントやウィンドウを作成",
     tags := ["新規", "new", "作成"] },
   { id := 11, category := "一般", action := "開く", mac := "⌘ + O", windows := "Ctrl + O",
     description := "ファイルを開くダイアログを表示",
     tags := ["開く", "open", "ファイル"] },
   { id := 12, category := "一般", action := "閉じる", mac := "⌘ + W", windows := "Ctrl + W",
     description := "現在のウィンドウやタブを閉じる",
     tags := ["閉じる", "close", "クローズ"] },
   { id := 13, category := "一般", action := "終了", mac := "⌘ + Q", windows := "Alt + F4",
     description := "アプリケーションを終了",
     tags := ["終了", "quit", "exit", "閉じる"] },
   { id := 14, category := "テキスト編集", action := "太字", mac := "⌘ + B",
     windows := "Ctrl + B", description := "選択したテキストを太字に",
     tags := ["太字", "bold", "ボールド"] },
   { id := 15, category := "テキスト編集", action := "斜体", mac := "⌘ + I",
     windows := "Ctrl + I", description := "選択したテキストを斜体に",
     tags := ["斜体", "italic", "イタリック"] },
   { id := 16, category := "テキスト編集", action := "下線", mac := "⌘ + U",
     windows := "Ctrl + U", description := "選択したテキストに下線を追加",
     tags := ["下線", "underline", "アンダーライン"] },
   { id := 17, category := "テキスト編集", action := "行の先頭へ移動", mac := "⌘ + ←",
     windows := "Home", description := "カーソルを行の先頭に移動",
     tags := ["行頭", "先頭", "home", "移動"] },
   { id := 18, category := "テキスト編集", action := "行の末尾へ移動", mac := "⌘ + →",
     windows := "End", description := "カーソルを行の末尾に移動",
     tags := ["行末", "末尾", "end", "移動"] },
   { id := 23, category := "ブラウザ", action := "新しいタブ", mac := "⌘ + T",
     windows := "Ctrl + T", description := "新しいタブを開く",
     tags := ["タブ", "tab", "新規", "ブラウザ"] },
   { id := 24, category := "ブラウザ", action := "タブを閉じる", mac := "⌘ + W",
     windows := "Ctrl + W", description := "現在のタブを閉じる",
     tags := ["タブ", "tab", "閉じる", "ブラウザ"] },
   { id := 25, category := "ブラウザ", action := "閉じたタブを復元", mac := "⌘ + Shift + T",
     windows := "Ctrl + Shift + T", description := "最後に閉じたタブを再度開く",
     tags := ["タブ", "復元", "reopen", "ブラウザ"] },
   { id := 28, category := "ブラウザ", action := "ページを再読み込み", mac := "⌘ + R",
     windows := "Ctrl + R / F5", description := "現在のページを再読み込み",
     tags := ["リロード", "reload", "更新", "refresh", "ブラウザ"] },
   { id := 30, category := "ブラウザ", action := "アドレスバーにフォーカス", mac := "⌘ + L",
     windows := "Ctrl + L / F6", description := "アドレスバーを選択",
     tags := ["アドレス", "URL", "ブラウザ", "フォーカス"] },
   { id := 32, category := "ブラウザ", action := "開発者ツール", mac := "⌘ + Option + I",
     windows := "F12 / Ctrl + Shift + I", description := "開発者ツールを開く",
     tags := ["開発者ツール", "devtools", "inspect", "デバッグ", "ブラウザ"] }]

/-- Second part of `get_default_shortcuts()` from main.rs (ids 38-75). -/
def default_shortcuts_b : List Shortcut :=
  [{ id := 38, category := "システム（Mac）", action := "Spotlight検索", mac := "⌘ + Space",
     windows := "-", description := "Spotlight検索を開く",
     tags := ["spotlight", "検索", "search", "mac"] },
   { id := 39, category := "システム（Mac）", action := "スクリーンショット（全画面）",
     mac := "⌘ + Shift + 3", windows := "Print Screen",
     description := "画面全体のスクリーンショットを撮影",
     tags := ["スクリーンショット", "screenshot", "画面キャプチャ"] },
   { id := 40, category := "システム（Mac）", action := "スクリーンショット（範囲選択）",
     mac := "⌘ + Shift + 4", windows := "Win + Shift + S",
     description := "選択範囲のスクリーンショットを撮影",
     tags := ["スクリーンショット", "screenshot", "画面キャプチャ", "範囲"] },
   { id := 44, category := "システム（Mac）", action := "アプリの切り替え", mac := "⌘ + Tab",
     windows := "Alt + Tab", description := "開いているアプリを切り替え",
     tags := ["切り替え", "switch", "アプリ", "tab"] },
   { id := 50, category := "システム（Windows）", action := "スタートメニュー", mac := "-",
     windows := "Win", description := "スタートメニューを開く",
     tags := ["スタート", "start", "メニュー", "windows"] },
   { id := 52, category := "システム（Windows）", action := "エクスプローラーを開く", mac := "-",
     windows := "Win + E", description := "ファイルエクスプローラーを開く",
     tags := ["エクスプローラー", "explorer", "ファイル", "windows"] },
   { id := 55, category := "システム（Windows）", action := "タスクビュー", mac := "-",
     windows := "Win + Tab", description := "タスクビューを開く",
     tags := ["タスクビュー", "task view", "ウィンドウ", "windows"] },
   { id := 61, category := "VS Code", action := "コマンドパレット", mac := "⌘ + Shift + P",
     windows := "Ctrl + Shift + P", description := "コマンドパレットを開く",
     tags := ["コマンド", "command", "palette", "vscode"] },
   { id := 62, category := "VS Code", action := "クイックオープン", mac := "⌘ + P",
     windows := "Ctrl + P", description := "ファイルをすばやく開く",
     tags := ["ファイル", "開く", "quick open", "vscode"] },
   { id := 66, category := "VS Code", action := "行を削除", mac := "⌘ + Shift + K",
     windows := "Ctrl + Shift + K", description := "現在の行を削除",
     tags := ["削除", "行", "delete", "vscode"] },
   { id := 69, category := "VS Code", action := "行コメント切り替え", mac := "⌘ + /",
     windows := "Ctrl + /", description := "行コメントの切り替え",
     tags := ["コメント", "comment", "vscode"] },
   { id := 71, category := "VS Code", action := "定義に移動", mac := "F12", windows := "F12",
     description := "シンボルの定義に移動",
     tags := ["定義", "definition", "ジャンプ", "vscode"] },
   { id := 67, category := "VS Code", action := "マルチカーソル", mac := "⌘ + Option + ↑/↓",
     windows := "Ctrl + Alt + ↑/↓", description := "複数行にカーソルを追加",
     tags := ["マルチカーソル", "multi cursor", "vscode"] },
   { id := 68, category := "VS Code", action := "同じ単語を選択", mac := "⌘ + D",
     windows := "Ctrl + D", description := "同じ単語の次の出現を選択に追加",
     tags := ["選択", "単語", "マルチ", "vscode"] },
   { id := 74, category := "VS Code", action := "サイドバー表示切り替え", mac := "⌘ + B",
     windows := "Ctrl + B", description := "サイドバーの表示/非表示を切り替え",
     tags := ["サイドバー", "sidebar", "vscode"] },
   { id := 75, category := "VS Code", action := "ターミナル表示切り替え", mac := "⌘ + `",
     windows := "Ctrl + `", description := "統合ターミナルの表示/非表示を切り替え",
     tags := ["ターミナル", "terminal", "vscode"] }]

/-- Third part of `get_default_shortcuts()` from main.rs (ids 26-37, 51-60, 77-79). -/
def default_shortcuts_c : List Shortcut :=
  [{ id := 26, category := "ブラウザ", action := "次のタブ", mac := "⌘ + Option + →",
     windows := "Ctrl + Tab", description := "次のタブに移動",
     tags := ["タブ", "tab", "次", "移動", "ブラウザ"] },
   { id := 27, category := "ブラウザ", action := "前のタブ", mac := "⌘ + Option + ←",
     windows := "Ctrl + Shift + Tab", description := "前のタブに移動",
     tags := ["タブ", "tab", "前", "移動", "ブラウザ"] },
   { id := 31, category := "ブラウザ", action := "ブックマーク追加", mac := "⌘ + D",
     windows := "Ctrl + D", description := "現在のページをブックマークに追加",
     tags := ["ブックマーク", "bookmark", "お気に入り", "ブラウザ"] },
   { id := 33, category := "ブラウザ", action := "戻る", mac := "⌘ + [",
     windows := "Alt + ←", description := "前のページに戻る",
     tags := ["戻る", "back", "ブラウザ", "ナビゲーション"] },
   { id := 34, category := "ブラウザ", action := "進む", mac := "⌘ + ]",
     windows := "Alt + →", description := "次のページに進む",
     tags := ["進む", "forward", "ブラウザ", "ナビゲーション"] },
   { id := 37, category := "ブラウザ", action := "シークレットウィンドウ", mac := "⌘ + Shift + N",
     windows := "Ctrl + Shift + N",
     description := "新しいシークレット/プライベートウィンドウを開く",
     tags := ["シークレット", "プライベート", "incognito", "ブラウザ"] },
   { id := 51, category := "システム（Windows）", action := "設定を開く", mac := "-",
     windows := "Win + I", description := "Windowsの設定を開く",
     tags := ["設定", "settings", "windows"] },
   { id := 56, category := "システム（Windows）", action := "ウィンドウを左半分にスナップ",
     mac := "-", windows := "Win + ←", description := "ウィンドウを画面の左半分にスナップ",
     tags := ["スナップ", "snap", "ウィンドウ", "左"] },
   { id := 57, category := "システム（Windows）", action := "ウィンドウを右半分にスナップ",
     mac := "-", windows := "Win + →", description := "ウィンドウを画面の右半分にスナップ",
     tags := ["スナップ", "snap", "ウィンドウ", "右"] },
   { id := 60, category := "システム（Windows）", action := "クリップボード履歴", mac := "-",
     windows := "Win + V", description := "クリップボード履歴を表示",
     tags := ["クリップボード", "clipboard", "履歴", "windows"] },
   { id := 77, category := "Finder / エクスプローラー", action := "新しいフォルダ",
     mac := "⌘ + Shift + N", windows := "Ctrl + Shift + N",
     description := "新しいフォルダを作成",
     tags := ["フォルダ", "folder", "新規", "作成"] },
   { id := 78, category := "Finder / エクスプローラー", action := "ファイル名を変更",
     mac := "Enter", windows := "F2", description := "選択したファイルの名前を変更",
     tags := ["名前変更", "rename", "ファイル"] },
   { id := 79, category := "Finder / エクスプローラー", action := "ゴミ箱に移動",
     mac := "⌘ + Delete", windows := "Delete",
     description := "選択したファイルをゴミ箱に移動",
     tags := ["削除", "delete", "ゴミ箱"] }]

/-- Fourth part of `get_default_shortcuts()` from main.rs (ids 84-102, 19-20, 43-49). -/
def default_shortcuts_d : List Shortcut :=
  [{ id := 84, category := "Slack", action := "クイックスイッチャー", mac := "⌘ + K",
     windows := "Ctrl + K", description := "チャンネルやDMをすばやく切り替え",
     tags := ["slack", "切り替え", "チャンネル", "検索"] },
   { id := 87, category := "Slack", action := "未読に移動", mac := "⌘ + Shift + A",
     windows := "Ctrl + Shift + A", description := "未読メッセージに移動",
     tags := ["slack", "未読", "メッセージ"] },
   { id := 88, category := "Excel / スプレッドシート", action := "セルの編集", mac := "F2",
     windows := "F2", description := "選択したセルを編集モードに",
     tags := ["excel", "編集", "セル"] },
   { id := 92, category := "Excel / スプレッドシート", action := "値のみ貼り付け",
     mac := "⌘ + Shift + V", windows := "Ctrl + Shift + V",
     description := "書式なしで値のみ貼り付け",
     tags := ["excel", "貼り付け", "値", "ペースト"] },
   { id := 95, category := "ターミナル", action := "コマンドを中断", mac := "Control + C",
     windows := "Ctrl + C", description := "実行中のコマンドを中断",
     tags := ["ターミナル", "terminal", "中断", "キャンセル"] },
   { id := 96, category := "ターミナル", action := "画面をクリア", mac := "⌘ + K / Control + L",
     windows := "cls / Ctrl + L", description := "ターミナル画面をクリア",
     tags := ["ターミナル", "terminal", "クリア", "clear"] },
   { id := 100, category := "Zoom", action := "ミュート切り替え", mac := "⌘ + Shift + A",
     windows := "Alt + A", description := "マイクのミュート/ミュート解除",
     tags := ["zoom", "ミュート", "mute", "マイク"] },
   { id := 101, category := "Zoom", action := "ビデオ切り替え", mac := "⌘ + Shift + V",
     windows := "Alt + V", description := "ビデオのオン/オフを切り替え",
     tags := ["zoom", "ビデオ", "video", "カメラ"] },
   { id := 102, category := "Zoom", action := "画面共有", mac := "⌘ + Shift + S",
     windows := "Alt + S", description := "画面共有を開始/停止",
     tags := ["zoom", "画面共有", "share", "screen"] },
   { id := 19, category := "テキスト編集", action := "単語単位で移動（左）", mac := "Option + ←",
     windows := "Ctrl + ←", description := "カーソルを単語単位で左に移動",
     tags := ["単語", "word", "移動", "左"] },
   { id := 20, category := "テキスト編集", action := "単語単位で移動（右）", mac := "Option + →",
     windows := "Ctrl + →", description := "カーソルを単語単位で右に移動",
     tags := ["単語", "word", "移動", "右"] },
   { id := 43, category := "システム（Mac）", action := "デスクトップを表示",
     mac := "F11 / ⌘ + F3", windows := "Win + D", description := "デスクトップを表示",
     tags := ["デスクトップ", "desktop", "表示"] },
   { id := 46, category := "システム（Mac）", action := "強制終了ダイアログ",
     mac := "⌘ + Option + Esc", windows := "Ctrl + Shift + Esc",
     description := "アプリケーションの強制終了ダイアログを開く",
     tags := ["強制終了", "force quit", "タスクマネージャー"] },
   { id := 47, category := "システム（Mac）", action := "画面ロック", mac := "⌘ + Control + Q",
     windows := "Win + L", description := "画面をロック",
     tags := ["ロック", "lock", "画面"] },
   { id := 49, category := "システム（Mac）", action := "絵文字ピッカー",
     mac := "⌘ + Control + Space", windows := "Win + .",
     description := "絵文字入力パネルを開く",
     tags := ["絵文字", "emoji", "顔文字"] }]

/-- `get_default_shortcuts()` from main.rs: the concatenation of the four parts
above, in source order. -/
def get_default_shortcuts : List Shortcut :=
  default_shortcuts_a ++ default_shortcuts_b ++ default_shortcuts_c ++ default_shortcuts_d

/-- `ShortcutsConfig::default()`. -/
def ShortcutsConfig.default : ShortcutsConfig :=
  { shortcuts := get_default_shortcuts }

/-- `AppsConfig::default()`. -/
def AppsConfig.default : AppsConfig :=
  { apps := get_default_apps }

/-! ## Config loading and saving (load_shortcuts_config / save_shortcuts_config,
load_apps_config / save_apps_config from main.rs)

The file system is modelled by `ConfigStorage`: whether `get_*_config_path()`
returned a path, what reading and parsing the file at that path would yield,
whether creating the directory and writing the file would succeed, and the
file's modification time. Effects record every storage access a call makes. -/

/-- Outcome of reading and parsing the config file at the path:
`absent` — `path.exists()` is false; `unreadable` — `fs::read_to_string` fails;
`invalid` — `serde_json::from_str` fails; `valid cfg` — parsing yields `cfg`. -/
inductive FileContent (T : Type) where
  | absent
  | unreadable
  | invalid
  | valid (cfg : T)
deriving DecidableEq

/-- State of the persistence layer seen by one config loader. -/
structure ConfigStorage (T : Type) where
  pathAvailable : Bool
  file : FileContent T
  writable : Bool
  mtime : Nat
deriving DecidableEq

/-- Storage accesses performed by a call. -/
inductive StorageEffect where
  | readFile
  | parseFile
  | writeFile
deriving DecidableEq

/-- `save_shortcuts_config` / `save_apps_config` from main.rs (the two have the
same body up to the document type): resolve the path, create the parent
directory, serialize and write; directory-creation, serialization and write
failures are collapsed into `writable = false` and reported as an error
string. A successful write replaces the file content and bumps the
modification time. -/
def save_config {T : Type} (cfg : T) (st : ConfigStorage T) :
    Except String Unit × ConfigStorage T × List StorageEffect :=
  if st.pathAvailable = false then
    (.error "config directory not found", st, [])
  else if st.writable = false then
    (.error "write failed", st, [.writeFile])
  else
    (.ok (), { st with file := .valid cfg, mtime := st.mtime + 1 }, [.writeFile])

/-- `load_shortcuts_config` / `load_apps_config` from main.rs (same body up to
the document type and default): if the path resolves and the file exists, try
to read it and then to parse it, returning the parsed value on success; on any
failure fall through to the default, attempt to persist the default
(discarding the save result, `let _ = save_*_config(&config)`), and return the
default. -/
def load_config {T : Type} (dflt : T) (st : ConfigStorage T) :
    T × ConfigStorage T × List StorageEffect :=
  if st.pathAvailable then
    match st.file with
    | .valid cfg => (cfg, st, [.readFile, .parseFile])
    | .invalid =>
      let s := save_config dflt st
      (dflt, s.2.1, [.readFile, .parseFile] ++ s.2.2)
    | .unreadable =>
      let s := save_config dflt st
      (dflt, s.2.1, [.readFile] ++ s.2.2)
    | .absent =>
      let s := save_config dflt st
      (dflt, s.2.1, s.2.2)
  else
    let s := save_config dflt st
    (dflt, s.2.1, s.2.2)

/-- `load_shortcuts_config()` from main.rs. -/
def load_shortcuts_config :
    ConfigStorage ShortcutsConfig →
      ShortcutsConfig × ConfigStorage ShortcutsConfig × List StorageEffect :=
  load_config ShortcutsConfig.default

/-- `load_apps_config()` from main.rs. -/
def load_apps_config :
    ConfigStorage AppsConfig → AppsConfig × ConfigStorage AppsConfig × List StorageEffect :=
  load_config AppsConfig.default

/-- `get_shortcuts()` command from main.rs: the shortcut list of the loaded
config, returned as is. -/
def get_shortcuts (st : ConfigStorage ShortcutsConfig) : List Shortcut :=
  (load_shortcuts_config st).1.shortcuts

/-! ## Claim C2 -/

/-- Counterexample to claim C2: `load_shortcuts_config` keeps no cache. With a
present, parsable, unchanged backing file (state, including the modification
time, is identical after the first load), the second load still reads and
parses storage — its effect trace is exactly a read followed by a parse — so
the second call does not return a cached value "without reading or parsing
storage again". -/
theorem load_cache_counterexample :
    ((load_shortcuts_config
        { pathAvailable := true, file := .valid { shortcuts := [] },
          writable := true, mtime := 0 }).2.1
      = { pathAvailable := true, file := .valid { shortcuts := [] },
          writable := true, mtime := 0 })
    ∧ (load_shortcuts_config
        (load_shortcuts_config
          { pathAvailable := true, file := .valid { shortcuts := [] },
            writable := true, mtime := 0 }).2.1).2.2
      = [StorageEffect.readFile, StorageEffect.parseFile] :=
  ⟨rfl, rfl⟩

/-- Claim C2 (amended): `load_shortcuts_config` maintains no in-memory cache:
every call with a resolvable path and a present, parsable backing file
re-reads and re-parses the file. Two consecutive loads of unchanged storage
both return the parsed value, leave storage untouched, and the second call's
effect trace again contains the read and the parse. -/
theorem load_shortcuts_no_cache (cfg : ShortcutsConfig) (st : ConfigStorage ShortcutsConfig)
    (h1 : st.pathAvailable = true) (h2 : st.file = .valid cfg) :
    (load_shortcuts_config st).1 = cfg
      ∧ (load_shortcuts_config st).2.1 = st
      ∧ (load_shortcuts_config ((load_shortcuts_config st).2.1)).1 = cfg
      ∧ (load_shortcuts_config ((load_shortcuts_config st).2.1)).2.2
          = [StorageEffect.readFile, StorageEffect.parseFile] := by
  obtain ⟨pa, f, w, m⟩ := st
  dsimp only at h1 h2
  subst h1
  subst h2
  exact ⟨rfl, rfl, rfl, rfl⟩

/-- Witness for the amended C2 at a concrete storage state. -/
theorem load_shortcuts_no_cache_witness :
    (load_shortcuts_config
        { pathAvailable := true, file := .valid { shortcuts := [] },
          writable := true, mtime := 7 }).1 = { shortcuts := [] }
      ∧ (load_shortcuts_config
          { pathAvailable := true, file := .valid { shortcuts := [] },
            writable := true, mtime := 7 }).2.1
        = { pathAvailable := true, file := .valid { shortcuts := [] },
            writable := true, mtime := 7 }
      ∧ (load_shortcuts_config
          ((load_shortcuts_config
            { pathAvailable := true, file := .valid { shortcuts := [] },
              writable := true, mtime := 7 }).2.1)).1 = { shortcuts := [] }
      ∧ (load_shortcuts_config
          ((load_shortcuts_config
            { pathAvailable := true, file := .valid { shortcuts := [] },
              writable := true, mtime := 7 }).2.1)).2.2
          = [StorageEffect.readFile, StorageEffect.parseFile] :=
  load_shortcuts_no_cache { shortcuts := [] }
    { pathAvailable := true, file := .valid { shortcuts := [] },
      writable := true, mtime := 7 } rfl rfl

/-! ## Claim C4 -/

/-- Claim C4: for every load of a configuration document whose backing file is
missing, unreadable, or unparsable, the load operation returns the default
document and — when the path resolves and writing succeeds — persists that
default back to the file path; a failing persistence write is swallowed (the
call still returns the default and leaves storage as it was) rather than
propagated to the caller (the return type carries no error at all). -/
theorem load_failure_returns_default {T : Type} (dflt : T) (st : ConfigStorage T)
    (h : ∀ cfg : T, st.file ≠ FileContent.valid cfg) :
    (load_config dflt st).1 = dflt
      ∧ (st.pathAvailable = true → st.writable = true →
          (load_config dflt st).2.1.file = FileContent.valid dflt)
      ∧ (st.writable = false → (load_config dflt st).2.1 = st) := by
  obtain ⟨pa, f, w, m⟩ := st
  cases f with
  | valid cfg => exact absurd rfl (h cfg)
  | absent => cases pa <;> cases w <;> simp [load_config, save_config]
  | unreadable => cases pa <;> cases w <;> simp [load_config, save_config]
  | invalid => cases pa <;> cases w <;> simp [load_config, save_config]

/-- Witness for C4: loading with a missing shortcuts file returns the default
document and leaves the default persisted in the file slot. -/
theorem load_failure_returns_default_witness :
    (load_config ShortcutsConfig.default
        { pathAvailable := true, file := .absent, writable := true, mtime := 0 }).1
      = ShortcutsConfig.default
      ∧ (load_config ShortcutsConfig.default
          { pathAvailable := true, file := .absent, writable := true, mtime := 0 }).2.1.file
        = FileContent.valid ShortcutsConfig.default :=
  ⟨(load_failure_returns_default ShortcutsConfig.default
      { pathAvailable := true, file := .absent, writable := true, mtime := 0 }
      (fun _ hc => FileContent.noConfusion hc)).1,
   (load_failure_returns_default ShortcutsConfig.default
      { pathAvailable := true, file := .absent, writable := true, mtime := 0 }
      (fun _ hc => FileContent.noConfusion hc)).2.1 rfl rfl⟩

/-! ## Claim C6 -/

/-- Counterexample to claim C6: `get_shortcuts` performs no platform
resolution and no sentinel filtering. For a stored configuration holding the
Spotlight entry, whose key for the Windows platform is the sentinel "-", the
result contains that entry verbatim, with both per-platform keys still
present. -/
theorem get_shortcuts_unfiltered_counterexample :
    get_shortcuts
        { pathAvailable := true,
          file := .valid { shortcuts :=
            [{ id := 38, category := "システム（Mac）", action := "Spotlight検索",
               mac := "⌘ + Space", windows := "-",
               description := "Spotlight検索を開く",
               tags := ["spotlight", "検索", "search", "mac"] }] },
          writable := true, mtime := 0 }
      = [{ id := 38, category := "システム（Mac）", action := "Spotlight検索",
           mac := "⌘ + Space", windows := "-",
           description := "Spotlight検索を開く",
           tags := ["spotlight", "検索", "search", "mac"] }]
      ∧ ({ id := 38, category := "システム（Mac）", action := "Spotlight検索",
           mac := "⌘ + Space", windows := "-",
           description := "Spotlight検索を開く",
           tags := ["spotlight", "検索", "search", "mac"] } : Shortcut).windows = "-" :=
  ⟨rfl, rfl⟩

/-- Claim C6 (amended): for every stored shortcuts configuration,
`get_shortcuts` returns the stored shortcut list verbatim — each entry keeps
both its `mac` and its `windows` key and no entry is filtered out, sentinel
"-" keys included; platform resolution and sentinel filtering happen outside
this function. -/
theorem get_shortcuts_returns_stored (cfg : ShortcutsConfig)
    (st : ConfigStorage ShortcutsConfig)
    (h1 : st.pathAvailable = true) (h2 : st.file = .valid cfg) :
    get_shortcuts st = cfg.shortcuts := by
  obtain ⟨pa, f, w, m⟩ := st
  dsimp only at h1 h2
  subst h1
  subst h2
  rfl

/-- Witness for the amended C6 at a concrete stored configuration. -/
theorem get_shortcuts_returns_stored_witness :
    get_shortcuts
        { pathAvailable := true,
          file := .valid { shortcuts :=
            [{ id := 50, category := "システム（Windows）", action := "スタートメニュー",
               mac := "-", windows := "Win",
               description := "スタートメニューを開く",
               tags := ["スタート", "start", "メニュー", "windows"] }] },
          writable := true, mtime := 3 }
      = [{ id := 50, category := "システム（Windows）", action := "スタートメニュー",
           mac := "-", windows := "Win",
           description := "スタートメニューを開く",
           tags := ["スタート", "start", "メニュー", "windows"] }] :=
  get_shortcuts_returns_stored
    { shortcuts :=
      [{ id := 50, category := "システム（Windows）", action := "スタートメニュー",
         mac := "-", windows := "Win",
         description := "スタートメニューを開く",
         tags := ["スタート", "start", "メニュー", "windows"] }] }
    _ rfl rfl

/-! ## Active-window tracker (update_last_active_app, start_active_window_monitor
from main.rs)

The shared state `LAST_ACTIVE_APP` (a mutex over `Option<ActiveWindowInfo>`)
and the `WINDOW_VISIBLE` atomic flag become explicit fields; each OS probe
result is an input to the loop iteration. -/

/-- Shared state touched by the monitor loop. -/
structure TrackerState where
  lastActiveApp : Option ActiveWindowInfo
  windowVisible : Bool
deriving DecidableEq

/-- `update_last_active_app()` from main.rs applied to the shared value: the
stored snapshot is replaced only when the probe returned one. -/
def update_last_active_app (probe : Option ActiveWindowInfo)
    (last_app : Option ActiveWindowInfo) : Option ActiveWindowInfo :=
  match probe with
  | some info => some info
  | none => last_app

/-- One iteration of the 200 ms loop body in `start_active_window_monitor()`:
read `WINDOW_VISIBLE`; only when the window is not visible, run
`update_last_active_app` on the probe result. -/
def monitorStep (probe : Option ActiveWindowInfo) (s : TrackerState) : TrackerState :=
  if s.windowVisible then s
  else { s with lastActiveApp := update_last_active_app probe s.lastActiveApp }

/-- Repeated loop iterations over a sequence of probe results. -/
def monitorRun (probes : List (Option ActiveWindowInfo)) (s : TrackerState) : TrackerState :=
  match probes with
  | [] => s
  | p :: rest => monitorRun rest (monitorStep p s)

/-- `active_window::get_active_window_info()` on macOS: the dummy
implementation always returns no snapshot. -/
def get_active_window_info_macos : Option ActiveWindowInfo := none

/-- `active_window::get_active_window_info()` on platforms other than Windows
and macOS: the dummy implementation always returns no snapshot. -/
def get_active_window_info_other : Option ActiveWindowInfo := none

/-! ## Claim C3 -/

/-- Claim C3: while the main-window-visible flag is true, every iteration of
the 200 ms background poll leaves the stored last-active-app snapshot (indeed
the whole shared state) unchanged, regardless of what the OS probe reports —
for a single iteration and for any run of iterations; and the stored snapshot
is only ever replaced by an iteration that saw the flag false. -/
theorem monitor_guard (s : TrackerState) (h : s.windowVisible = true) :
    (∀ probe, monitorStep probe s = s)
      ∧ (∀ probes, monitorRun probes s = s)
      ∧ ∀ (s2 : TrackerState) (probe : Option ActiveWindowInfo),
          (monitorStep probe s2).lastActiveApp ≠ s2.lastActiveApp →
            s2.windowVisible = false := by
  have hstep : ∀ probe, monitorStep probe s = s := by
    intro probe
    simp [monitorStep, h]
  refine ⟨hstep, ?_, ?_⟩
  · intro probes
    induction probes with
    | nil => rfl
    | cons p rest ih => simpa [monitorRun, hstep p] using ih
  · intro s2 probe hne
    cases hv : s2.windowVisible with
    | false => rfl
    | true => exact absurd (by simp [monitorStep, hv]) hne

/-- Witness for C3: with the window visible, a probe reporting a different
foreground app does not alter the stored snapshot. -/
theorem monitor_guard_witness :
    monitorStep (some { process := some "chrome", window := some "Google Chrome" })
        { lastActiveApp := some { process := some "Code", window := some "main.rs" },
          windowVisible := true }
      = { lastActiveApp := some { process := some "Code", window := some "main.rs" },
          windowVisible := true } :=
  (monitor_guard
    { lastActiveApp := some { process := some "Code", window := some "main.rs" },
      windowVisible := true } rfl).1
    (some { process := some "chrome", window := some "Google Chrome" })

/-! ## Claim C10 -/

/-- Claim C10: at every iteration of the background poll, if the probe returns
no snapshot — as the dummy implementations on macOS and on platforms other
than Windows always do, and as the Windows probe does on failure — the shared
last-active-app value is left unchanged, whatever the visibility flag; a
previously stored snapshot is never overwritten with "no data". -/
theorem probe_none_keeps_snapshot :
    (∀ s : TrackerState, monitorStep none s = s)
      ∧ (∀ last_app, update_last_active_app none last_app = last_app)
      ∧ get_active_window_info_macos = none
      ∧ get_active_window_info_other = none := by
  refine ⟨?_, fun _ => rfl, rfl, rfl⟩
  intro s
  obtain ⟨last_app, wv⟩ := s
  cases wv <;> simp [monitorStep, update_last_active_app]

/-! ## VisibilityController (toggle_window from main.rs) -/

/-- Events emitted to the presentation layer. -/
inductive AppEvent where
  | windowShown (payload : Option ActiveWindowInfo)
  | windowHidden
deriving DecidableEq

/-- State touched by `toggle_window`: the presentation layer's actual
visibility (`window.is_visible()`), the `WINDOW_VISIBLE` flag, the tracker's
shared snapshot, and the log of emitted events. -/
structure WindowState where
  shellVisible : Bool
  windowVisible : Bool
  lastActiveApp : Option ActiveWindowInfo
  events : List AppEvent
deriving DecidableEq

/-- `toggle_window(app)` from main.rs, assuming the main window exists: if the
window reports visible, clear the flag and hide it; otherwise read the saved
last-active app, set the flag, center+show+focus, and emit `window-shown`
carrying the snapshot. -/
def toggle_window (s : WindowState) : WindowState :=
  if s.shellVisible then
    { s with windowVisible := false, shellVisible := false }
  else
    let active_app := s.lastActiveApp
    { s with windowVisible := true, shellVisible := true,
             events := s.events ++ [AppEvent.windowShown active_app] }

/-- `hide_window(app)` from main.rs: clear the flag, hide, emit
`window-hidden`. -/
def hide_window (s : WindowState) : WindowState :=
  { s with windowVisible := false, shellVisible := false,
           events := s.events ++ [AppEvent.windowHidden] }

/-! ## Claim C5 -/

/-- Claim C5: starting from any visibility state with no intervening external
events, toggling twice returns the main window's visibility to its original
state and leaves the tracker snapshot untouched; whichever of the two toggles
shows the window emits exactly one `window-shown` notification whose payload
equals the snapshot the tracker held at that instant. -/
theorem toggle_twice_restores_visibility (s : WindowState) :
    (toggle_window (toggle_window s)).shellVisible = s.shellVisible
      ∧ (toggle_window (toggle_window s)).lastActiveApp = s.lastActiveApp
      ∧ (s.shellVisible = false →
          (toggle_window s).events = s.events ++ [AppEvent.windowShown s.lastActiveApp])
      ∧ (s.shellVisible = true →
          (toggle_window (toggle_window s)).events
            = s.events ++ [AppEvent.windowShown s.lastActiveApp]) := by
  obtain ⟨sv, wv, last_app, evs⟩ := s
  cases sv <;> simp [toggle_window]

/-- Witness for C5: from a hidden window the toggle emits the tracker's
snapshot, and a second toggle restores the hidden state. -/
theorem toggle_twice_restores_visibility_witness :
    (toggle_window (toggle_window
        { shellVisible := false, windowVisible := false,
          lastActiveApp := some { process := some "slack", window := some "general" },
          events := [] })).shellVisible = false
      ∧ (toggle_window
          { shellVisible := false, windowVisible := false,
            lastActiveApp := some { process := some "slack", window := some "general" },
            events := [] }).events
        = [AppEvent.windowShown (some { process := some "slack", window := some "general" })] :=
  ⟨(toggle_twice_restores_visibility
      { shellVisible := false, windowVisible := false,
        lastActiveApp := some { process := some "slack", window := some "general" },
        events := [] }).1,
   (toggle_twice_restores_visibility
      { shellVisible := false, windowVisible := false,
        lastActiveApp := some { process := some "slack", window := some "general" },
        events := [] }).2.2.1 rfl⟩

/-! ## Process-name suffix stripping (get_active_window_info on Windows,
main.rs): `name.trim_end_matches(".exe").trim_end_matches(".EXE")`. -/

theorem strip_no_lead (pat : List Char) (hp : pat ≠ []) :
    ∀ (fuel : Nat) (s : List Char), s.length ≤ fuel →
      isPrefixList pat (stripPrefixRepeated fuel s pat) = false := by
  intro fuel
  induction fuel with
  | zero =>
    intro s hs
    have hsnil : s = [] := List.eq_nil_of_length_eq_zero (Nat.le_zero.mp hs)
    subst hsnil
    cases pat with
    | nil => exact absurd rfl hp
    | cons a as => rfl
  | succ n ih =>
    intro s hs
    have hne : pat.isEmpty = false := by
      cases pat with
      | nil => exact absurd rfl hp
      | cons a as => rfl
    have hlen : 0 < pat.length := List.length_pos.mpr hp
    cases hpre : isPrefixList pat s with
    | true =>
      have hred : stripPrefixRepeated (n + 1) s pat
          = stripPrefixRepeated n (s.drop pat.length) pat := by
        simp [stripPrefixRepeated, hne, hpre]
      rw [hred]
      refine ih (s.drop pat.length) ?_
      rw [List.length_drop]
      omega
    | false =>
      have hred : stripPrefixRepeated (n + 1) s pat = s := by
        simp [stripPrefixRepeated, hne, hpre]
      rw [hred]
      exact hpre

theorem strip_id_of_no_lead (fuel : Nat) (s pat : List Char)
    (h : isPrefixList pat s = false) : stripPrefixRepeated fuel s pat = s := by
  cases fuel with
  | zero => rfl
  | succ n =>
    cases hne : pat.isEmpty with
    | true => simp [stripPrefixRepeated, hne]
    | false => simp [stripPrefixRepeated, hne, h]

/-- After `trim_end_matches(pat)` with a nonempty pattern, the result no
longer ends with `pat`. -/
theorem trimEndMatches_no_suffix (s pat : String) (hp : pat.data ≠ []) :
    strEndsWith (trimEndMatches s pat) pat = false := by
  unfold strEndsWith trimEndMatches
  show isPrefixList pat.data.reverse
      ((stripPrefixRepeated s.data.length s.data.reverse pat.data.reverse).reverse).reverse
    = false
  rw [List.reverse_reverse]
  exact strip_no_lead pat.data.reverse (by simpa using hp) s.data.length s.data.reverse
    (by simp)

/-- `trim_end_matches(pat)` leaves a string that does not end with `pat`
unchanged. -/
theorem trimEndMatches_id (s pat : String) (h : strEndsWith s pat = false) :
    trimEndMatches s pat = s := by
  unfold strEndsWith at h
  unfold trimEndMatches
  rw [strip_id_of_no_lead _ _ _ h, List.reverse_reverse]

/-- The process-name cleanup applied inside the Windows
`get_active_window_info` before the name is stored in the snapshot. -/
def strip_exe_extension (name : String) : String :=
  trimEndMatches (trimEndMatches name ".exe") ".EXE"

/-- The Windows `active_window::get_active_window_info()` with the OS calls
abstracted: `probe_failed` collapses the three early-`None` conditions (null
foreground handle, zero process id, the window belonging to the calling
process itself); `raw_process` is the module base name when it could be read,
`raw_title` the window title when it could be read. The process name is
stored after `strip_exe_extension`. -/
def get_active_window_info_windows (probe_failed : Bool)
    (raw_process : Option String) (raw_title : Option String) :
    Option ActiveWindowInfo :=
  if probe_failed then none
  else some { process := raw_process.map strip_exe_extension, window := raw_title }

/-! ## Claim C7 -/

/-- Counterexample to claim C7: the stripping is not case-insensitive. The
observed process name "App.Exe" ends with the executable extension in mixed
letter case (its lowering ends with ".exe"), yet it is stored in the snapshot
unchanged, suffix intact. -/
theorem exe_suffix_case_counterexample :
    strip_exe_extension "App.Exe" = "App.Exe"
      ∧ strEndsWith (String.mk (toLowerList "App.Exe")) ".exe" = true
      ∧ get_active_window_info_windows false (some "App.Exe") none
        = some { process := some "App.Exe", window := none } := by
  refine ⟨?_, ?_, ?_⟩ <;> decide

/-- Claim C7 (amended): only the two exact suffix spellings are stripped, in
order: first every trailing repetition of ".exe", then every trailing
repetition of ".EXE". Consequently the name stored in the snapshot never ends
in ".EXE", the intermediate result of the first pass never ends in ".exe", a
name ending in neither exact spelling (such as one ending in ".Exe") is
stored unchanged, and the stripped name is what the Windows probe places in
the returned snapshot. -/
theorem exe_suffix_strip_exact (s : String) :
    strEndsWith (trimEndMatches s ".exe") ".exe" = false
      ∧ strEndsWith (strip_exe_extension s) ".EXE" = false
      ∧ (strEndsWith s ".exe" = false → strEndsWith s ".EXE" = false →
          strip_exe_extension s = s)
      ∧ ∀ (t : Option String),
          get_active_window_info_windows false (some s) t
            = some { process := some (strip_exe_extension s), window := t } := by
  refine ⟨?_, ?_, ?_, fun t => rfl⟩
  · exact trimEndMatches_no_suffix s ".exe" (by decide)
  · exact trimEndMatches_no_suffix (trimEndMatches s ".exe") ".EXE" (by decide)
  · intro h1 h2
    unfold strip_exe_extension
    rw [trimEndMatches_id s ".exe" h1, trimEndMatches_id s ".EXE" h2]

/-- Witness for the amended C7: "notepad.exe" loses its lowercase suffix, and
the mixed-case "App.Exe" passes through unchanged. -/
theorem exe_suffix_strip_exact_witness :
    strEndsWith (trimEndMatches "notepad.exe" ".exe") ".exe" = false
      ∧ strip_exe_extension "App.Exe" = "App.Exe" :=
  ⟨(exe_suffix_strip_exact "notepad.exe").1,
   (exe_suffix_strip_exact "App.Exe").2.2.1 (by decide) (by decide)⟩

/-! ## OverlayController sizing (spec §4.6)

The repository source under src/ contains no overlay implementation; the
OverlayController, its sizing constants and `MIN_WIDTH`/`MAX_WIDTH` bounds
exist only in the specification, so the sizing rule is modelled from the
spec's words, with the numeric constants the spec leaves unspecified kept as
parameters. -/

/-- Modelled from the spec: the OverlayController's sizing constants (absent
from src/) — a base width, a fixed increment per detected modifier family, a
fixed increment per separator character, one default-key increment, and the
clamping bounds. -/
structure OverlaySizing where
  base_width : Nat
  modifier_increment : Nat
  separator_increment : Nat
  default_key_increment : Nat
  min_width : Nat
  max_width : Nat

/-- Modelled from the spec: the number of modifier families detected in the
shortcut key — control, shift, alt/option, and the platform "super" family
(command/cmd/win and the ⌘ glyph) — each detected independently and summed. -/
def modifier_count (key : String) : Nat :=
  (if strContainsCI key "ctrl" || strContainsCI key "control" then 1 else 0)
    + (if strContainsCI key "shift" then 1 else 0)
    + (if strContainsCI key "alt" || strContainsCI key "option" then 1 else 0)
    + (if strContainsCI key "cmd" || strContainsCI key "command"
          || strContainsCI key "win" || strContainsCI key "⌘" then 1 else 0)

/-- Modelled from the spec: the number of separator characters `+` in the
shortcut key. -/
def separator_count (key : String) : Nat :=
  (key.data.filter (fun c => c == '+')).length

/-- Modelled from the spec: the unclamped overlay width — base width, plus
the modifier increment per detected modifier family, plus the separator
increment per `+`, plus one default-key increment. -/
def raw_overlay_width (c : OverlaySizing) (key : String) : Nat :=
  c.base_width + c.modifier_increment * modifier_count key
    + c.separator_increment * separator_count key + c.default_key_increment

/-- Modelled from the spec: the overlay width, the unclamped width clamped to
the minimum and maximum bounds. -/
def overlay_width (c : OverlaySizing) (key : String) : Nat :=
  max c.min_width (min c.max_width (raw_overlay_width c key))

/-! ## Claim C8 -/

/-- Claim C8: for every shortcut-key string, the overlay width computed by
the deterministic sizing rule lies within the clamping bounds; and for any
sizing constants under which the clamp is not degenerate on these two inputs
(the bounds are ordered, "K" does not fall below the minimum, "Ctrl+Shift+K"
does not exceed the maximum) and the modifier increment is positive, the
width computed for "Ctrl+Shift+K" is strictly greater than the width computed
for "K" alone. -/
theorem overlay_width_bounds (c : OverlaySizing)
    (hbounds : c.min_width ≤ c.max_width)
    (hk : c.min_width ≤ raw_overlay_width c "K")
    (hcsk : raw_overlay_width c "Ctrl+Shift+K" ≤ c.max_width)
    (hmod : 0 < c.modifier_increment) :
    (∀ key, c.min_width ≤ overlay_width c key ∧ overlay_width c key ≤ c.max_width)
      ∧ overlay_width c "K" < overlay_width c "Ctrl+Shift+K" := by
  have hm0 : modifier_count "K" = 0 := by decide
  have hs0 : separator_count "K" = 0 := by decide
  have hm2 : modifier_count "Ctrl+Shift+K" = 2 := by decide
  have hs2 : separator_count "Ctrl+Shift+K" = 2 := by decide
  constructor
  · intro key
    exact ⟨Nat.le_max_left _ _, Nat.max_le.mpr ⟨hbounds, Nat.min_le_left _ _⟩⟩
  · have hlt : raw_overlay_width c "K" < raw_overlay_width c "Ctrl+Shift+K" := by
      unfold raw_overlay_width
      rw [hm0, hs0, hm2, hs2]
      omega
    have h1 : overlay_width c "K" = raw_overlay_width c "K" := by
      unfold overlay_width
      rw [Nat.min_eq_right (le_trans (le_of_lt hlt) hcsk), Nat.max_eq_right hk]
    have h2 : overlay_width c "Ctrl+Shift+K" = raw_overlay_width c "Ctrl+Shift+K" := by
      unfold overlay_width
      rw [Nat.min_eq_right hcsk, Nat.max_eq_right (le_trans hk (le_of_lt hlt))]
    rw [h1, h2]
    exact hlt

/-- Witness for C8 at concrete sizing constants (base 120, modifier increment
40, separator increment 8, default-key increment 24, bounds 140 and 420). -/
theorem overlay_width_bounds_witness :
    (140 ≤ overlay_width ⟨120, 40, 8, 24, 140, 420⟩ "Ctrl+Shift+K"
        ∧ overlay_width ⟨120, 40, 8, 24, 140, 420⟩ "Ctrl+Shift+K" ≤ 420)
      ∧ overlay_width ⟨120, 40, 8, 24, 140, 420⟩ "K"
          < overlay_width ⟨120, 40, 8, 24, 140, 420⟩ "Ctrl+Shift+K" :=
  ⟨(overlay_width_bounds ⟨120, 40, 8, 24, 140, 420⟩
      (by decide) (by decide) (by decide) (by decide)).1 "Ctrl+Shift+K",
   (overlay_width_bounds ⟨120, 40, 8, 24, 140, 420⟩
      (by decide) (by decide) (by decide) (by decide)).2⟩
